import Mathlib

/-!
Shallow embedding of the chatbot API routes of this repository:

* `src/app/api/chatbot/conversations/route.ts` — the conversation store
  endpoints (list / create / delete-many) and, in the same file, the
  chat-completion endpoint (`POST /api/chatbot`, provider resolution,
  streaming and buffered generation) and the repository's API test script.
* `src/app/api/chatbot/models/route.ts` — the per-conversation endpoints
  (get / put / patch / delete) together with the `getConversation` /
  `saveConversation` helpers.

Modelling conventions, used consistently below:

* Instants (`Date.now()`, `new Date().toISOString()`) are modelled as a
  single `Nat` clock value passed to each handler as `now`; the ISO string
  rendering is irrelevant to the verified properties.
* The Redis handle (`redis` from `@/lib/redis/config`, which may be absent)
  is modelled as `Option RedisState`.  A Redis string record with its TTL is
  a `StoredRecord` carrying the absolute expiry instant; a sorted set is an
  association list from member to score.
* The record key `conversation:{userId}:{conversationId}` is modelled as the
  ordered pair `(userId, conversationId)` of its variable parts, and the
  index key `conversations:{userId}` by `userId` itself; the constant
  prefixes carry no information and the concatenation is injective in the
  variable parts for the id alphabets in use (nanoid ids contain no colon).
* The LLM backend (`streamText` from the `ai` package — outside this
  repository) is modelled abstractly by a `BackendRun`: the list of
  incremental text chunks it produces, followed by either completion (with
  opaque usage / finish-reason payload, modelled as `Nat` and `String`) or a
  failure.  Both the streaming and the buffered branch of the chat endpoint
  consume the same `BackendRun`.
-/

/-- Message role enumeration, mirroring `z.enum(['user', 'assistant', 'system'])`. -/
inductive Role
  | user
  | assistant
  | system
deriving DecidableEq

/-- Stored message shape from `ConversationSchema` (timestamp as `Nat` instant). -/
structure Message where
  role : Role
  content : String
  timestamp : Nat
deriving DecidableEq

/-- Conversation record shape from `ConversationSchema` in
`src/app/api/chatbot/conversations/route.ts`. -/
structure Conversation where
  id : String
  title : String
  messages : List Message
  model : String
  createdAt : Nat
  updatedAt : Nat
  userId : String
deriving DecidableEq

/-! ### String helpers mirroring the JS string operations -/

/-- Mirrors JS `String.prototype.startsWith` on the character list: `listStartsWith s p`
is true when `p` is a prefix of `s`. -/
def listStartsWith : List Char → List Char → Bool
  | _, [] => true
  | [], _ :: _ => false
  | a :: as, b :: bs => a = b && listStartsWith as bs

/-- Mirrors JS `String.prototype.includes` on the character list: `listIncludes s p`
is true when `p` occurs contiguously inside `s`. -/
def listIncludes : List Char → List Char → Bool
  | [], p => listStartsWith [] p
  | a :: rest, p => listStartsWith (a :: rest) p || listIncludes rest p

/-- JS `s.startsWith(p)`. -/
def strStartsWith (s p : String) : Bool := listStartsWith s.toList p.toList

/-- JS `s.includes(p)`. -/
def strIncludes (s p : String) : Bool := listIncludes s.toList p.toList

/-! ### Provider resolution (`getProvider`) -/

/-- The five provider handles imported by the chat route. -/
inductive Provider
  | openai
  | anthropic
  | google
  | groq
  | xai
deriving DecidableEq

/-- Mirrors `getProvider` in `src/app/api/chatbot/conversations/route.ts`:
a cascade of prefix/substring tests, first match wins, with the fixed
OpenAI default (`DEFAULT_MODELS.openai = 'gpt-4o-mini'`) when nothing matches. -/
def getProvider (model : String) : Provider × String :=
  if strStartsWith model "gpt-" || strIncludes model "openai" then
    (Provider.openai, model)
  else if strStartsWith model "claude-" || strIncludes model "anthropic" then
    (Provider.anthropic, model)
  else if strStartsWith model "gemini-" || strIncludes model "google" then
    (Provider.google, model)
  else if strIncludes model "llama" || strIncludes model "groq" then
    (Provider.groq, model)
  else if strIncludes model "grok" || strIncludes model "xai" then
    (Provider.xai, model)
  else
    (Provider.openai, "gpt-4o-mini")

/-- The ordered rule table described by the specification: each rule is a
predicate over the identifier plus a target backend, in source order. -/
def ruleTable : List ((String → Bool) × Provider) :=
  [ (fun m => strStartsWith m "gpt-" || strIncludes m "openai", Provider.openai),
    (fun m => strStartsWith m "claude-" || strIncludes m "anthropic", Provider.anthropic),
    (fun m => strStartsWith m "gemini-" || strIncludes m "google", Provider.google),
    (fun m => strIncludes m "llama" || strIncludes m "groq", Provider.groq),
    (fun m => strIncludes m "grok" || strIncludes m "xai", Provider.xai) ]

/-- First matching rule of an ordered rule list. -/
def firstMatch : List ((String → Bool) × Provider) → String → Option Provider
  | [], _ => none
  | (p, prov) :: rest, m => if p m then some prov else firstMatch rest m

/-- Modelled from the spec's words (for comparison with `getProvider`):
resolution applies the fixed ordered rule list, the first matching rule
wins, and an identifier matching no rule maps to the default backend and
default model. -/
def resolveByRules (m : String) : Provider × String :=
  match firstMatch ruleTable m with
  | some prov => (prov, m)
  | none => (Provider.openai, "gpt-4o-mini")

/-! ### Streaming events and the backend abstraction -/

/-- Outcome of one backend generation run: completion with the opaque
usage/finish-reason payload, or a failure. -/
inductive BackendOutcome
  | completed (usage : Nat) (finishReason : String)
  | failed
deriving DecidableEq

/-- One backend generation run: the incremental text chunks produced (in
emission order, all delivered before the terminal outcome) and the outcome. -/
structure BackendRun where
  chunks : List String
  outcome : BackendOutcome
deriving DecidableEq

/-- Stream events written by the streaming branch of the chat endpoint:
`text-chunk`, `conversation-finished` and `error` data records. -/
inductive StreamEvent
  | textChunk (content : String) (conversationId : Option String)
  | finished (conversationId : Option String) (usage : Nat) (finishReason : String)
  | errorEvent (message : String) (conversationId : Option String)
deriving DecidableEq

/-- The single terminal event of a run: the `onFinish` write on completion,
or the `catch` handler's error write (message `'Failed to generate response'`). -/
def terminalEvent (cid : Option String) : BackendOutcome → StreamEvent
  | BackendOutcome.completed u r => StreamEvent.finished cid u r
  | BackendOutcome.failed => StreamEvent.errorEvent "Failed to generate response" cid

/-- Event sequence written by the streaming branch (`createDataStreamResponse`
execute block): one `text-chunk` per backend chunk via `onChunk`, in order,
then the terminal event. -/
def emitStream (cid : Option String) : List String → BackendOutcome → List StreamEvent
  | [], o => [terminalEvent cid o]
  | c :: cs, o => StreamEvent.textChunk c cid :: emitStream cid cs o

/-- Terminal events are the finished and error ones. -/
def StreamEvent.isTerminal : StreamEvent → Bool
  | StreamEvent.textChunk _ _ => false
  | _ => true

/-- Test for a `conversation-finished` event. -/
def StreamEvent.isFinished : StreamEvent → Bool
  | StreamEvent.finished _ _ _ => true
  | _ => false

/-- Test for an `error` event. -/
def StreamEvent.isError : StreamEvent → Bool
  | StreamEvent.errorEvent _ _ => true
  | _ => false

/-- Content carried by a `text-chunk` event, if any. -/
def StreamEvent.chunkContent : StreamEvent → Option String
  | StreamEvent.textChunk c _ => some c
  | _ => none

/-- Conversation id echoed by an event. -/
def StreamEvent.convId : StreamEvent → Option String
  | StreamEvent.textChunk _ c => c
  | StreamEvent.finished c _ _ => c
  | StreamEvent.errorEvent _ c => c

/-! ### The chat-completion endpoint (`POST /api/chatbot`) -/

/-- Request message shape from `ChatbotRequestSchema`. -/
structure ChatMessageIn where
  role : Role
  content : String
deriving DecidableEq

/-- Request body of the chat endpoint, after JSON decoding, as constrained by
`ChatbotRequestSchema` (note: the `messages` array carries no length bound in
the schema). -/
structure ChatbotRequest where
  messages : List ChatMessageIn
  conversationId : Option String
  model : Option String
  temperature : Option ℚ
  maxTokens : Option ℚ
  stream : Option Bool
  systemPrompt : Option String
deriving DecidableEq

/-- Mirrors the constraints `ChatbotRequestSchema.parse` checks beyond mere
shape: `temperature` in [0, 2] and `maxTokens` in [1, 4000] when present.
There is no constraint on `messages` (in particular none on its length). -/
def validChatbotRequest (r : ChatbotRequest) : Bool :=
  (match r.temperature with
   | none => true
   | some t => decide ((0 : ℚ) ≤ t) && decide (t ≤ (2 : ℚ))) &&
  (match r.maxTokens with
   | none => true
   | some k => decide ((1 : ℚ) ≤ k) && decide (k ≤ (4000 : ℚ)))

/-- Model selection of the chat endpoint: the requested model if truthy, else
the id parsed from the `selectedModel` cookie if present and parseable
(`savedModel`), else `DEFAULT_MODELS.openai`. -/
def selectModel (req : ChatbotRequest) (savedModel : Option String) : String :=
  match req.model with
  | some m =>
    if m = "" then
      match savedModel with
      | some c => c
      | none => "gpt-4o-mini"
    else m
  | none =>
    match savedModel with
    | some c => c
    | none => "gpt-4o-mini"

/-- Responses of the chat endpoint: a 400 on schema violation, the streaming
event sequence, the buffered JSON success, or the 500 produced by the outer
catch when the buffered `await result.text` rejects. -/
inductive ChatResponse
  | validationError
  | streamResponse (events : List StreamEvent)
  | okChat (content : String) (conversationId : Option String) (model : String) (usage : Nat)
  | providerError
deriving DecidableEq

/-- Mirrors `POST` of the chat route.  The resolved user id is obtained but —
as in the source — never checked; it is only used for logging.  The provider
handle is resolved and the backend invoked; its output is the `run` argument. -/
def chatbotPOST (uid : Option String) (req : ChatbotRequest) (savedModel : Option String)
    (run : BackendRun) : ChatResponse :=
  if validChatbotRequest req = false then ChatResponse.validationError
  else
    let selectedModel := selectModel req savedModel
    let _backend := getProvider selectedModel
    let _user := uid
    if req.stream.getD true then
      ChatResponse.streamResponse (emitStream req.conversationId run.chunks run.outcome)
    else
      match run.outcome with
      | BackendOutcome.completed usage _ =>
        ChatResponse.okChat (String.join run.chunks) req.conversationId selectedModel usage
      | BackendOutcome.failed => ChatResponse.providerError

/-- Boolean check that every conversation id echoed by a chat response equals
the one supplied in the request. -/
def responseCidsOk (req : ChatbotRequest) : ChatResponse → Bool
  | ChatResponse.streamResponse evs => evs.all (fun e => e.convId == req.conversationId)
  | ChatResponse.okChat _ c _ _ => c == req.conversationId
  | _ => true

/-! ### The Redis model -/

/-- Association-list find (the unique binding of a key, if any). -/
def afind {κ α : Type} [DecidableEq κ] : List (κ × α) → κ → Option α
  | [], _ => none
  | (k', v) :: rest, k => if k' = k then some v else afind rest k

/-- Remove all bindings of a key. -/
def aerase {κ α : Type} [DecidableEq κ] : List (κ × α) → κ → List (κ × α)
  | [], _ => []
  | (k', v) :: rest, k => if k' = k then aerase rest k else (k', v) :: aerase rest k

/-- Set the binding of a key (insert or overwrite). -/
def aset {κ α : Type} [DecidableEq κ] (l : List (κ × α)) (k : κ) (v : α) : List (κ × α) :=
  (k, v) :: aerase l k

/-- A stored conversation record together with its absolute expiry instant
(the record was written with `ex: 30*24*60*60` at some instant `now`). -/
structure StoredRecord where
  conv : Conversation
  expireAt : Nat
deriving DecidableEq

/-- The reachable Redis content used by these routes: string records keyed by
`(userId, conversationId)` and sorted sets keyed by `userId` holding
member/score pairs. -/
structure RedisState where
  kv : List ((String × String) × StoredRecord)
  zsets : List (String × List (String × Nat))
deriving DecidableEq

/-- An empty Redis instance. -/
def emptyRedis : RedisState := { kv := [], zsets := [] }

/-- Mirrors `getConversationKey`: the key `conversation:{userId}:{conversationId}`,
modelled by its variable parts. -/
def getConversationKey (userId conversationId : String) : String × String :=
  (userId, conversationId)

/-- Mirrors `getUserConversationsKey`: the key `conversations:{userId}`,
modelled by its variable part. -/
def getUserConversationsKey (userId : String) : String :=
  userId

/-- Redis `GET` of a record. -/
def RedisState.rget (st : RedisState) (k : String × String) : Option StoredRecord :=
  afind st.kv k

/-- Redis `SET key value EX ttl` issued at instant `now`. -/
def RedisState.setEx (st : RedisState) (k : String × String) (conv : Conversation)
    (ttl now : Nat) : RedisState :=
  { st with kv := aset st.kv k { conv := conv, expireAt := now + ttl } }

/-- Redis `DEL`, returning the new state and the number of keys removed. -/
def RedisState.rdel (st : RedisState) (k : String × String) : RedisState × Nat :=
  match afind st.kv k with
  | some _ => ({ st with kv := aerase st.kv k }, 1)
  | none => (st, 0)

/-- Member/score entries of a sorted set (empty when the key is absent). -/
def zentries (st : RedisState) (zkey : String) : List (String × Nat) :=
  (afind st.zsets zkey).getD []

/-- Redis `ZADD key score member` (insert or update the member's score). -/
def RedisState.zadd (st : RedisState) (zkey : String) (score : Nat) (member : String) :
    RedisState :=
  { st with zsets := aset st.zsets zkey (aset (zentries st zkey) member score) }

/-- Redis `ZREM key member`. -/
def RedisState.zrem (st : RedisState) (zkey : String) (member : String) : RedisState :=
  { st with zsets := aset st.zsets zkey (aerase (zentries st zkey) member) }

/-- Redis `ZCARD`. -/
def RedisState.zcard (st : RedisState) (zkey : String) : Nat :=
  (zentries st zkey).length

/-- Descending-recency comparison on member/score entries. -/
def byRecency (a b : String × Nat) : Prop := b.2 ≤ a.2

instance : DecidableRel byRecency := fun a b => Nat.decLe b.2 a.2

instance : IsTotal (String × Nat) byRecency := ⟨fun a b => Nat.le_total b.2 a.2⟩

instance : IsTrans (String × Nat) byRecency :=
  ⟨fun _ _ _ hab hbc => Nat.le_trans hbc hab⟩

/-- Sorted-set entries in descending score order. -/
def sortDesc (l : List (String × Nat)) : List (String × Nat) :=
  List.insertionSort byRecency l

/-- The entries underlying `ZREVRANGE key start stop` (used by the list
endpoint with `start = offset ≥ 0`). -/
def pageEntries (st : RedisState) (zkey : String) (start stop : Int) : List (String × Nat) :=
  ((sortDesc (zentries st zkey)).drop start.toNat).take (stop - start + 1).toNat

/-- Redis `ZREVRANGE key start stop`: members in descending score order,
positions `start` through `stop` inclusive. -/
def RedisState.zrevrange (st : RedisState) (zkey : String) (start stop : Int) : List String :=
  (pageEntries st zkey start stop).map Prod.fst

/-! ### Conversation endpoints -/

/-- Response of `GET /api/chatbot/conversations`. -/
inductive ListResponse
  | unauthorized
  | okL (conversations : List Conversation) (total : Nat) (hasMore : Bool)
deriving DecidableEq

/-- Mirrors `GET` of the conversations route: auth check, `limit` clamped to
at most 100 and `offset` to at least 0, empty no-op success without Redis,
`zrevrange` page then per-id fetch with missing records filtered out, `total`
from `zcard`; an empty page short-circuits to `total = 0, hasMore = false`. -/
def listGET (uid : Option String) (limitQ offsetQ : Int) (redis : Option RedisState) :
    ListResponse :=
  match uid with
  | none => ListResponse.unauthorized
  | some userId =>
    let limit := min limitQ 100
    let offset := max offsetQ 0
    match redis with
    | none => ListResponse.okL [] 0 false
    | some st =>
      let conversationIds := st.zrevrange (getUserConversationsKey userId) offset
        (offset + limit - 1)
      if conversationIds.isEmpty then ListResponse.okL [] 0 false
      else
        let fetched := conversationIds.map
          (fun cid => (st.rget (getConversationKey userId cid)).map (fun r => r.conv))
        let valid := fetched.filterMap (fun x => x)
        let total := st.zcard (getUserConversationsKey userId)
        ListResponse.okL valid total (decide (offset + limit < (total : Int)))

/-- Body of `POST /api/chatbot/conversations` (`CreateConversationSchema`). -/
structure CreateBody where
  title : String
  model : Option String
  systemPrompt : Option String
deriving DecidableEq

/-- Constraints checked by `CreateConversationSchema`: title length 1..100. -/
def validCreateBody (b : CreateBody) : Bool :=
  decide (1 ≤ b.title.length) && decide (b.title.length ≤ 100)

/-- Response of `POST /api/chatbot/conversations`. -/
inductive CreateResponse
  | unauthorized
  | invalidBody
  | okC (conversation : Conversation)
deriving DecidableEq

/-- Mirrors `POST` of the conversations route: auth, validation, build the
record (seeding one system message when a system prompt is supplied,
defaulting the model to `gpt-4o-mini`), then — when Redis is configured —
`SET ... EX 30d` plus `ZADD` of the fresh id at the current instant. -/
def createPOST (uid : Option String) (body : CreateBody) (freshId : String) (now : Nat)
    (redis : Option RedisState) : Option RedisState × CreateResponse :=
  match uid with
  | none => (redis, CreateResponse.unauthorized)
  | some userId =>
    if validCreateBody body = false then (redis, CreateResponse.invalidBody)
    else
      let model := body.model.getD "gpt-4o-mini"
      let conversation : Conversation :=
        { id := freshId
          title := body.title
          messages :=
            match body.systemPrompt with
            | some sp => [{ role := Role.system, content := sp, timestamp := now }]
            | none => []
          model := model
          createdAt := now
          updatedAt := now
          userId := userId }
      match redis with
      | none => (none, CreateResponse.okC conversation)
      | some st =>
        let st1 := st.setEx (getConversationKey userId freshId) conversation
          (30 * 24 * 60 * 60) now
        let st2 := st1.zadd (getUserConversationsKey userId) now freshId
        (some st2, CreateResponse.okC conversation)

/-- Response of `DELETE /api/chatbot/conversations?ids=...`. -/
inductive DeleteManyResponse
  | unauthorized
  | noIds
  | okD (deletedCount : Nat)
deriving DecidableEq

/-- One iteration of the delete-many loop: `DEL` the record key and, when a
record was removed, `ZREM` its id and count it. -/
def delManyStep (userId : String) (acc : RedisState × Nat) (conversationId : String) :
    RedisState × Nat :=
  let dr := acc.1.rdel (getConversationKey userId conversationId)
  if 0 < dr.2 then
    ((dr.1).zrem (getUserConversationsKey userId) conversationId, acc.2 + 1)
  else
    (dr.1, acc.2)

/-- Mirrors `DELETE` of the conversations route: auth, a 400 when no ids are
supplied, no-op success without Redis, else the id-by-id deletion loop. -/
def deleteManyDELETE (uid : Option String) (ids : List String) (redis : Option RedisState) :
    Option RedisState × DeleteManyResponse :=
  match uid with
  | none => (redis, DeleteManyResponse.unauthorized)
  | some userId =>
    if ids.isEmpty then (redis, DeleteManyResponse.noIds)
    else
      match redis with
      | none => (none, DeleteManyResponse.okD 0)
      | some st =>
        let r := ids.foldl (delManyStep userId) (st, 0)
        (some r.1, DeleteManyResponse.okD r.2)

/-- Mirrors the `getConversation` helper of the per-conversation route:
`null` without Redis, else the record value at the conversation key. -/
def getConversation (redis : Option RedisState) (userId conversationId : String) :
    Option Conversation :=
  match redis with
  | none => none
  | some st => (st.rget (getConversationKey userId conversationId)).map (fun r => r.conv)

/-- Mirrors the `saveConversation` helper: `false` without Redis, else refresh
`updatedAt`, `SET ... EX 30d` the record under the conversation's own id, and
`ZADD` the current instant as the index score.  Returns the state, the
success flag and the (mutated) conversation the handler goes on to return. -/
def saveConversation (redis : Option RedisState) (userId : String) (conversation : Conversation)
    (now : Nat) : Option RedisState × Bool × Conversation :=
  match redis with
  | none => (none, false, conversation)
  | some st =>
    let conversation := { conversation with updatedAt := now }
    let st1 := st.setEx (getConversationKey userId conversation.id) conversation
      (30 * 24 * 60 * 60) now
    let st2 := st1.zadd (getUserConversationsKey userId) now conversation.id
    (some st2, true, conversation)

/-- Response of `GET /api/chatbot/conversations/[id]`. -/
inductive GetOneResponse
  | unauthorized
  | notFound
  | okG (conversation : Conversation)
deriving DecidableEq

/-- Mirrors `GET` of the per-conversation route. -/
def getOne (uid : Option String) (conversationId : String) (redis : Option RedisState) :
    GetOneResponse :=
  match uid with
  | none => GetOneResponse.unauthorized
  | some userId =>
    match getConversation redis userId conversationId with
    | none => GetOneResponse.notFound
    | some conversation => GetOneResponse.okG conversation

/-- Message shape of `UpdateConversationSchema` (`timestamp` optional). -/
structure UpdMsg where
  role : Role
  content : String
  timestamp : Option Nat
deriving DecidableEq

/-- Body of `PUT /api/chatbot/conversations/[id]` (`UpdateConversationSchema`). -/
structure UpdateBody where
  title : Option String
  messages : Option (List UpdMsg)
deriving DecidableEq

/-- Constraints checked by `UpdateConversationSchema`: optional title 1..100. -/
def validUpdateBody (b : UpdateBody) : Bool :=
  match b.title with
  | none => true
  | some t => decide (1 ≤ t.length) && decide (t.length ≤ 100)

/-- Response of `PUT /api/chatbot/conversations/[id]`. -/
inductive PutResponse
  | unauthorized
  | invalidBody
  | notFound
  | saveFailed
  | okU (conversation : Conversation)
deriving DecidableEq

/-- Mirrors `PUT` of the per-conversation route: auth, validation, fetch,
apply the optional title and full message-list overwrite (defaulting absent
timestamps to now), then `saveConversation`. -/
def putConversation (uid : Option String) (conversationId : String) (body : UpdateBody)
    (now : Nat) (redis : Option RedisState) : Option RedisState × PutResponse :=
  match uid with
  | none => (redis, PutResponse.unauthorized)
  | some userId =>
    if validUpdateBody body = false then (redis, PutResponse.invalidBody)
    else
      match getConversation redis userId conversationId with
      | none => (redis, PutResponse.notFound)
      | some conversation =>
        let conversation :=
          match body.title with
          | none => conversation
          | some t => { conversation with title := t }
        let conversation :=
          match body.messages with
          | none => conversation
          | some ms =>
            { conversation with
              messages := ms.map (fun m =>
                { role := m.role, content := m.content, timestamp := m.timestamp.getD now }) }
        match saveConversation redis userId conversation now with
        | (redis2, true, conversation2) => (redis2, PutResponse.okU conversation2)
        | (redis2, false, _) => (redis2, PutResponse.saveFailed)

/-- Body of `PATCH /api/chatbot/conversations/[id]` (`AddMessageSchema`:
role restricted to user/assistant). -/
structure AddMessageBody where
  role : Role
  content : String
deriving DecidableEq

/-- Constraint checked by `AddMessageSchema`: `z.enum(['user', 'assistant'])`. -/
def validAddMessage (b : AddMessageBody) : Bool :=
  match b.role with
  | Role.user => true
  | Role.assistant => true
  | Role.system => false

/-- Response of `PATCH /api/chatbot/conversations/[id]`. -/
inductive PatchResponse
  | unauthorized
  | invalidBody
  | notFound
  | saveFailed
  | okP (conversation : Conversation) (addedMessage : Message)
deriving DecidableEq

/-- Mirrors `PATCH` of the per-conversation route: auth, validation, fetch,
push the new message (timestamped now) at the end, then `saveConversation`. -/
def patchConversation (uid : Option String) (conversationId : String) (body : AddMessageBody)
    (now : Nat) (redis : Option RedisState) : Option RedisState × PatchResponse :=
  match uid with
  | none => (redis, PatchResponse.unauthorized)
  | some userId =>
    if validAddMessage body = false then (redis, PatchResponse.invalidBody)
    else
      match getConversation redis userId conversationId with
      | none => (redis, PatchResponse.notFound)
      | some conversation =>
        let newMessage : Message :=
          { role := body.role, content := body.content, timestamp := now }
        let conversation :=
          { conversation with messages := conversation.messages ++ [newMessage] }
        match saveConversation redis userId conversation now with
        | (redis2, true, conversation2) => (redis2, PatchResponse.okP conversation2 newMessage)
        | (redis2, false, _) => (redis2, PatchResponse.saveFailed)

/-- Response of `DELETE /api/chatbot/conversations/[id]`. -/
inductive DeleteOneResponse
  | unauthorized
  | notFound
  | okDel (deleted : Bool)
deriving DecidableEq

/-- Mirrors `DELETE` of the per-conversation route: auth, no-op success
without Redis, existence check, `DEL` then `ZREM` when a record was removed. -/
def deleteOne (uid : Option String) (conversationId : String) (redis : Option RedisState) :
    Option RedisState × DeleteOneResponse :=
  match uid with
  | none => (redis, DeleteOneResponse.unauthorized)
  | some userId =>
    match redis with
    | none => (none, DeleteOneResponse.okDel false)
    | some st =>
      match getConversation (some st) userId conversationId with
      | none => (some st, DeleteOneResponse.notFound)
      | some _ =>
        let dr := st.rdel (getConversationKey userId conversationId)
        let st2 :=
          if 0 < dr.2 then (dr.1).zrem (getUserConversationsKey userId) conversationId
          else dr.1
        (some st2, DeleteOneResponse.okDel (decide (0 < dr.2)))

/-- The chat endpoint seen as a store client: the route imports no Redis
handle and performs no store operation, so the store component of its result
is the unchanged input state. -/
def chatbotPOSTWithStore (uid : Option String) (req : ChatbotRequest)
    (savedModel : Option String) (run : BackendRun) (redis : Option RedisState) :
    Option RedisState × ChatResponse :=
  (redis, chatbotPOST uid req savedModel run)

/-! ### Operation sequences over the store -/

/-- One inbound request touching (or, for reads and chat, merely consulting)
the store, with all of its non-deterministic inputs (user resolution, fresh
id, clock, backend run) made explicit. -/
inductive StoreOp
  | createC (uid : Option String) (body : CreateBody) (freshId : String) (now : Nat)
  | putC (uid : Option String) (conversationId : String) (body : UpdateBody) (now : Nat)
  | patchC (uid : Option String) (conversationId : String) (body : AddMessageBody) (now : Nat)
  | deleteC (uid : Option String) (conversationId : String)
  | deleteManyC (uid : Option String) (ids : List String)
  | listC (uid : Option String) (limitQ offsetQ : Int)
  | getC (uid : Option String) (conversationId : String)
  | chatC (uid : Option String) (req : ChatbotRequest) (savedModel : Option String)
      (run : BackendRun)

/-- Store-state effect of one request. -/
def stepStore (redis : Option RedisState) : StoreOp → Option RedisState
  | StoreOp.createC uid b fid now => (createPOST uid b fid now redis).1
  | StoreOp.putC uid cid b now => (putConversation uid cid b now redis).1
  | StoreOp.patchC uid cid b now => (patchConversation uid cid b now redis).1
  | StoreOp.deleteC uid cid => (deleteOne uid cid redis).1
  | StoreOp.deleteManyC uid ids => (deleteManyDELETE uid ids redis).1
  | StoreOp.listC _ _ _ => redis
  | StoreOp.getC _ _ => redis
  | StoreOp.chatC uid req sm run => (chatbotPOSTWithStore uid req sm run redis).1

/-- Store state after a sequence of requests. -/
def runOps (redis : Option RedisState) (ops : List StoreOp) : Option RedisState :=
  ops.foldl stepStore redis

/-- The record/index lockstep invariant: a conversation id is a member of a
user's recency index exactly when that user's conversation record exists. -/
def Lockstep (st : RedisState) : Prop :=
  ∀ u c : String,
    (st.rget (getConversationKey u c)).isSome = true ↔
      (afind (zentries st (getUserConversationsKey u)) c).isSome = true

/-- The invariant lifted to the optional store handle (an unconfigured store
holds no state). -/
def StoreInv : Option RedisState → Prop
  | none => True
  | some st => Lockstep st

/-! ### Helper lemmas: association lists -/

theorem afind_aerase_self {κ α : Type} [DecidableEq κ] (l : List (κ × α)) (k : κ) :
    afind (aerase l k) k = none := by
  induction l with
  | nil => rfl
  | cons p rest ih =>
    obtain ⟨k', v⟩ := p
    by_cases h : k' = k
    · simp [aerase, h, ih]
    · simp [aerase, afind, h, ih]

theorem afind_aerase_ne {κ α : Type} [DecidableEq κ] (l : List (κ × α)) {k k' : κ}
    (h : k' ≠ k) : afind (aerase l k) k' = afind l k' := by
  induction l with
  | nil => rfl
  | cons p rest ih =>
    obtain ⟨k₀, v⟩ := p
    by_cases h0 : k₀ = k
    · subst h0
      simp [aerase, afind, Ne.symm h, ih]
    · by_cases h1 : k₀ = k'
      · subst h1
        simp [aerase, afind, h0, h]
      · simp [aerase, afind, h0, h1, ih]

theorem afind_aset_self {κ α : Type} [DecidableEq κ] (l : List (κ × α)) (k : κ) (v : α) :
    afind (aset l k v) k = some v := by
  simp [aset, afind]

theorem afind_aset_ne {κ α : Type} [DecidableEq κ] (l : List (κ × α)) {k k' : κ} (v : α)
    (h : k' ≠ k) : afind (aset l k v) k' = afind l k' := by
  simp [aset, afind, Ne.symm h, afind_aerase_ne l h]

/-! ### Helper lemmas: the streaming event sequence -/

theorem emitStream_closed (cid : Option String) (cs : List String) (o : BackendOutcome) :
    emitStream cid cs o = cs.map (fun c => StreamEvent.textChunk c cid) ++ [terminalEvent cid o] := by
  induction cs with
  | nil => rfl
  | cons c cs ih => simp [emitStream, ih]

theorem emitStream_filter_terminal (cid : Option String) (cs : List String) (o : BackendOutcome) :
    (emitStream cid cs o).filter StreamEvent.isTerminal = [terminalEvent cid o] := by
  induction cs with
  | nil => cases o <;> rfl
  | cons c cs ih => simpa [emitStream, StreamEvent.isTerminal] using ih

theorem emitStream_chunkContents (cid : Option String) (cs : List String) (o : BackendOutcome) :
    (emitStream cid cs o).filterMap StreamEvent.chunkContent = cs := by
  induction cs with
  | nil => cases o <;> rfl
  | cons c cs ih => simp [emitStream, StreamEvent.chunkContent, ih]

theorem emitStream_countP_finished (cid : Option String) (cs : List String) (o : BackendOutcome) :
    (emitStream cid cs o).countP StreamEvent.isFinished =
      (match o with | BackendOutcome.completed _ _ => 1 | BackendOutcome.failed => 0) := by
  induction cs with
  | nil => cases o <;> rfl
  | cons c cs ih => simpa [emitStream, List.countP_cons, StreamEvent.isFinished] using ih

theorem emitStream_countP_error (cid : Option String) (cs : List String) (o : BackendOutcome) :
    (emitStream cid cs o).countP StreamEvent.isError =
      (match o with | BackendOutcome.completed _ _ => 0 | BackendOutcome.failed => 1) := by
  induction cs with
  | nil => cases o <;> rfl
  | cons c cs ih => simpa [emitStream, List.countP_cons, StreamEvent.isError] using ih

theorem emitStream_all_convId (cid : Option String) (cs : List String) (o : BackendOutcome) :
    (emitStream cid cs o).all (fun e => e.convId == cid) = true := by
  induction cs with
  | nil => cases o <;> simp [emitStream, terminalEvent, StreamEvent.convId]
  | cons c cs ih => simpa [emitStream, StreamEvent.convId] using ih

/-! ### C1 — streaming emits chunks in order then exactly one terminal event -/

/-- C1: once streaming has begun, the emitted event sequence is the backend's
`TextChunk`s in emission order followed by exactly one terminal event —
`Finished` on completion, `Error` on failure, never both and never neither —
with no event of any kind after the terminal one (the terminal event is the
last element).  In particular a backend failing after two chunks yields those
two `TextChunk` events, then exactly one `Error` event and no `Finished`. -/
theorem streaming_event_protocol (cid : Option String) (run : BackendRun) :
    emitStream cid run.chunks run.outcome
        = run.chunks.map (fun c => StreamEvent.textChunk c cid) ++ [terminalEvent cid run.outcome]
    ∧ ((emitStream cid run.chunks run.outcome).filter StreamEvent.isTerminal).length = 1
    ∧ (emitStream cid run.chunks run.outcome).filterMap StreamEvent.chunkContent = run.chunks
    ∧ (emitStream cid run.chunks run.outcome).countP StreamEvent.isFinished
        + (emitStream cid run.chunks run.outcome).countP StreamEvent.isError = 1
    ∧ emitStream cid ["chunk1", "chunk2"] BackendOutcome.failed
        = [StreamEvent.textChunk "chunk1" cid, StreamEvent.textChunk "chunk2" cid,
           StreamEvent.errorEvent "Failed to generate response" cid]
    ∧ (emitStream cid ["chunk1", "chunk2"] BackendOutcome.failed).countP StreamEvent.isFinished
        = 0 := by
  refine ⟨emitStream_closed cid run.chunks run.outcome, ?_, emitStream_chunkContents _ _ _, ?_, rfl, rfl⟩
  · rw [emitStream_filter_terminal]
    rfl
  · rw [emitStream_countP_finished, emitStream_countP_error]
    cases run.outcome <;> rfl

/-! ### C3 — provider resolution -/

/-- C3: `getProvider` is a pure total function of the model identifier that
applies the fixed ordered rule table with first-match-wins tie breaking
(`resolveByRules` is the rule-table reading of the spec), unresolvable
identifiers map to the default OpenAI backend with the default model, and the
two scenario-C identifiers resolve to the Anthropic and Groq rules. -/
theorem provider_resolution (m : String) :
    getProvider m = resolveByRules m
    ∧ (firstMatch ruleTable m = none → getProvider m = (Provider.openai, "gpt-4o-mini"))
    ∧ getProvider "claude-3-haiku-20240307" = (Provider.anthropic, "claude-3-haiku-20240307")
    ∧ getProvider "some-llama-model" = (Provider.groq, "some-llama-model") := by
  have hmain : getProvider m = resolveByRules m := by
    simp only [getProvider, resolveByRules, ruleTable, firstMatch]
    by_cases h1 : strStartsWith m "gpt-" || strIncludes m "openai" <;>
      by_cases h2 : strStartsWith m "claude-" || strIncludes m "anthropic" <;>
        by_cases h3 : strStartsWith m "gemini-" || strIncludes m "google" <;>
          by_cases h4 : strIncludes m "llama" || strIncludes m "groq" <;>
            by_cases h5 : strIncludes m "grok" || strIncludes m "xai" <;>
              simp [h1, h2, h3, h4, h5]
  refine ⟨hmain, ?_, by decide, by decide⟩
  intro hnone
  rw [hmain, resolveByRules, hnone]

/-- Witness for `provider_resolution`: the identifier `"mistral-large"`
matches no rule and resolves to the fixed default backend and model. -/
theorem provider_resolution_witness :
    firstMatch ruleTable "mistral-large" = none
    ∧ getProvider "mistral-large" = (Provider.openai, "gpt-4o-mini") :=
  ⟨by decide, (provider_resolution "mistral-large").2.1 (by decide)⟩

/-! ### C4 — empty message history is not rejected (code bug) -/

/-- C4 evaluation at the failing input: `ChatbotRequestSchema` places no
minimum length on `messages`, so a request with an empty history passes
validation and the handler proceeds to the backend call — the buffered
response is built from the backend run — instead of failing with a 400
validation error as the repository's own test script expects. -/
theorem empty_history_accepted :
    validChatbotRequest
        { messages := [], conversationId := none, model := some "gpt-4o-mini",
          temperature := none, maxTokens := none, stream := some false,
          systemPrompt := none } = true
    ∧ chatbotPOST (some "user-1")
        { messages := [], conversationId := none, model := some "gpt-4o-mini",
          temperature := none, maxTokens := none, stream := some false, systemPrompt := none }
        none { chunks := ["Hello"], outcome := BackendOutcome.completed 5 "stop" }
        = ChatResponse.okChat "Hello" none "gpt-4o-mini" 5
    ∧ chatbotPOST (some "user-1")
        { messages := [], conversationId := none, model := some "gpt-4o-mini",
          temperature := none, maxTokens := none, stream := some false, systemPrompt := none }
        none { chunks := ["Hello"], outcome := BackendOutcome.completed 5 "stop" }
        ≠ ChatResponse.validationError := by
  refine ⟨by decide, by decide, by decide⟩

/-! ### C9 — the chat endpoint does not enforce authentication (code bug) -/

/-- C9 evaluation at the failing input: with `currentUserId()` returning
none, every conversation endpoint short-circuits to the 401 response, but the
chat-completion endpoint — which resolves the user id only to log it — runs
the generation and returns a success built from the backend output. -/
theorem chat_auth_gap :
    chatbotPOST none
        { messages := [{ role := Role.user, content := "hi" }], conversationId := none,
          model := some "gpt-4o-mini", temperature := none, maxTokens := none,
          stream := some false, systemPrompt := none }
        none { chunks := ["ok"], outcome := BackendOutcome.completed 3 "stop" }
      = ChatResponse.okChat "ok" none "gpt-4o-mini" 3
    ∧ listGET none 20 0 none = ListResponse.unauthorized
    ∧ getOne none "c-1" none = GetOneResponse.unauthorized
    ∧ patchConversation none "c-1" { role := Role.user, content := "hi" } 0 none
        = (none, PatchResponse.unauthorized)
    ∧ (createPOST none { title := "T", model := none, systemPrompt := none } "id-1" 0 none).2
        = CreateResponse.unauthorized := by
  refine ⟨by decide, rfl, rfl, rfl, rfl⟩

/-! ### C10 — a generation turn never touches the conversation store -/

/-- C10: running a chat-completion turn (streaming or buffered) leaves the
store state unchanged — the chat route performs no store operation — and the
`conversationId` supplied in the request is only echoed back, unchanged, in
every emitted event and in the buffered response. -/
theorem chat_never_touches_store (uid : Option String) (req : ChatbotRequest)
    (sm : Option String) (run : BackendRun) (redis : Option RedisState) :
    (chatbotPOSTWithStore uid req sm run redis).1 = redis
    ∧ stepStore redis (StoreOp.chatC uid req sm run) = redis
    ∧ responseCidsOk req (chatbotPOST uid req sm run) = true := by
  refine ⟨rfl, rfl, ?_⟩
  by_cases hv : validChatbotRequest req = false
  · simp [chatbotPOST, hv, responseCidsOk]
  · by_cases hs : req.stream.getD true
    · simp [chatbotPOST, hv, hs, responseCidsOk, emitStream_all_convId]
    · cases ho : run.outcome with
      | completed u r => simp [chatbotPOST, hv, hs, ho, responseCidsOk]
      | failed => simp [chatbotPOST, hv, hs, ho, responseCidsOk]

/-! ### C5 — buffered generation refines the streaming pipeline -/

/-- C5: for the same backend, messages, temperature and maxTokens, the
buffered branch (`stream = false`) returns content equal to the ordered
concatenation of all `TextChunk` contents the streaming pipeline would
produce for the same backend run, together with the usage payload that the
`Finished` event of that streaming run carries; if the backend fails before
completion, the buffered branch yields the provider-error response (the
outer catch's 500) and never a partial result. -/
theorem buffered_refines_streaming (uid : Option String) (req : ChatbotRequest)
    (sm : Option String) (run : BackendRun)
    (hv : validChatbotRequest req = true) (hs : req.stream = some false) :
    (∀ u r, run.outcome = BackendOutcome.completed u r →
      chatbotPOST uid req sm run
          = ChatResponse.okChat
              (String.join ((emitStream req.conversationId run.chunks run.outcome).filterMap
                StreamEvent.chunkContent))
              req.conversationId (selectModel req sm) u
        ∧ StreamEvent.finished req.conversationId u r
            ∈ emitStream req.conversationId run.chunks run.outcome)
    ∧ (run.outcome = BackendOutcome.failed →
        chatbotPOST uid req sm run = ChatResponse.providerError) := by
  constructor
  · intro u r ho
    constructor
    · rw [emitStream_chunkContents]
      simp [chatbotPOST, hv, hs, ho]
    · rw [emitStream_closed, ho]
      simp [terminalEvent]
  · intro ho
    simp [chatbotPOST, hv, hs, ho]

/-- Witness for `buffered_refines_streaming` at a concrete request and a
backend run completing after two chunks. -/
theorem buffered_refines_streaming_witness :
    chatbotPOST (some "u-1")
        { messages := [{ role := Role.user, content := "hi" }], conversationId := some "c-9",
          model := some "gpt-4o-mini", temperature := none, maxTokens := none,
          stream := some false, systemPrompt := none } none
        { chunks := ["Hel", "lo"], outcome := BackendOutcome.completed 7 "stop" }
      = ChatResponse.okChat
          (String.join ((emitStream (some "c-9") ["Hel", "lo"]
            (BackendOutcome.completed 7 "stop")).filterMap StreamEvent.chunkContent))
          (some "c-9")
          (selectModel
            { messages := [{ role := Role.user, content := "hi" }], conversationId := some "c-9",
              model := some "gpt-4o-mini", temperature := none, maxTokens := none,
              stream := some false, systemPrompt := none } none) 7 :=
  ((buffered_refines_streaming (some "u-1")
      { messages := [{ role := Role.user, content := "hi" }], conversationId := some "c-9",
        model := some "gpt-4o-mini", temperature := none, maxTokens := none,
        stream := some false, systemPrompt := none } none
      { chunks := ["Hel", "lo"], outcome := BackendOutcome.completed 7 "stop" }
      (by decide) rfl).1 7 "stop" rfl).1

/-! ### C2 — degradation when the store is unconfigured -/

/-- C2 counterexample: with the store unconfigured, fetching, appending to or
replacing a conversation does not degrade to a no-op success — `getConversation`
returns nothing, so these three handlers answer with the 404 not-found error
response, contradicting the claim that no operation returns an error status in
that state. -/
theorem store_unavailable_counterexample :
    getOne (some "user-1") "conv-1" none = GetOneResponse.notFound
    ∧ patchConversation (some "user-1") "conv-1" { role := Role.user, content := "hi" } 0 none
        = (none, PatchResponse.notFound)
    ∧ putConversation (some "user-1") "conv-1" { title := some "T", messages := none } 0 none
        = (none, PutResponse.notFound) := by
  refine ⟨by decide, by decide, by decide⟩

/-- C2 as amended: with the store unconfigured, list, create, delete-single
and delete-many degrade to no-op successes with empty or default results,
while get, replace (PUT) and append (PATCH) instead fail with NotFound (404)
because the record lookup comes back empty. -/
theorem store_unavailable_amended (uid : String) (limitQ offsetQ : Int) (b : CreateBody)
    (fid : String) (now : Nat) (ids : List String) (cid : String) (ub : UpdateBody)
    (mb : AddMessageBody) (hb : validCreateBody b = true) (hids : ids.isEmpty = false)
    (hub : validUpdateBody ub = true) (hmb : validAddMessage mb = true) :
    listGET (some uid) limitQ offsetQ none = ListResponse.okL [] 0 false
    ∧ createPOST (some uid) b fid now none
        = (none, CreateResponse.okC
            { id := fid
              title := b.title
              messages :=
                match b.systemPrompt with
                | some sp => [{ role := Role.system, content := sp, timestamp := now }]
                | none => []
              model := b.model.getD "gpt-4o-mini"
              createdAt := now
              updatedAt := now
              userId := uid })
    ∧ deleteManyDELETE (some uid) ids none = (none, DeleteManyResponse.okD 0)
    ∧ deleteOne (some uid) cid none = (none, DeleteOneResponse.okDel false)
    ∧ getOne (some uid) cid none = GetOneResponse.notFound
    ∧ putConversation (some uid) cid ub now none = (none, PutResponse.notFound)
    ∧ patchConversation (some uid) cid mb now none = (none, PatchResponse.notFound) := by
  refine ⟨rfl, ?_, ?_, rfl, rfl, ?_, ?_⟩
  · simp [createPOST, hb]
  · simp [deleteManyDELETE, hids]
  · simp [putConversation, hub, getConversation]
  · simp [patchConversation, hmb, getConversation]

/-- Witness for `store_unavailable_amended` at concrete inputs. -/
theorem store_unavailable_amended_witness :
    listGET (some "u-1") 20 0 none = ListResponse.okL [] 0 false :=
  (store_unavailable_amended "u-1" 20 0 { title := "T", model := none, systemPrompt := none }
    "id-1" 0 ["c-1"] "c-1" { title := none, messages := none }
    { role := Role.user, content := "hi" } (by decide) (by decide) (by decide) (by decide)).1

/-! ### Helper lemmas: the list page -/

theorem zrevrange_length_le (st : RedisState) (zkey : String) (start stop : Int) :
    (st.zrevrange zkey start stop).length ≤ (stop - start + 1).toNat := by
  simp only [RedisState.zrevrange, pageEntries, List.length_map]
  exact List.length_take_le _ _

theorem pageEntries_pairwise (st : RedisState) (zkey : String) (start stop : Int) :
    (pageEntries st zkey start stop).Pairwise (fun a b : String × Nat => b.2 ≤ a.2) := by
  have hs : (sortDesc (zentries st zkey)).Pairwise byRecency :=
    List.sorted_insertionSort byRecency (zentries st zkey)
  have hsub : List.Sublist (pageEntries st zkey start stop) (sortDesc (zentries st zkey)) :=
    (List.take_sublist _ _).trans (List.drop_sublist _ _)
  exact hs.sublist hsub

/-! ### C6 — list pagination -/

/-- C6 counterexample: a user with two indexed conversations, queried with
`limit = 1 ≤ 100` and `offset = 2 ≥ 0`, receives `total = 0` (and
`hasMore = false`) although the per-user index cardinality at read time is 2:
the empty `zrevrange` page short-circuits before `zcard` is consulted, so the
returned `total` is not the index cardinality. -/
theorem list_total_counterexample :
    listGET (some "u") 1 2 (some
      { kv := [(("u", "c1"),
          { conv := { id := "c1", title := "t", messages := [], model := "m",
                      createdAt := 1, updatedAt := 1, userId := "u" }, expireAt := 100 }),
         (("u", "c2"),
          { conv := { id := "c2", title := "t", messages := [], model := "m",
                      createdAt := 2, updatedAt := 2, userId := "u" }, expireAt := 100 })],
        zsets := [("u", [("c1", 1), ("c2", 2)])] })
      = ListResponse.okL [] 0 false
    ∧ RedisState.zcard
        { kv := [(("u", "c1"),
            { conv := { id := "c1", title := "t", messages := [], model := "m",
                        createdAt := 1, updatedAt := 1, userId := "u" }, expireAt := 100 }),
           (("u", "c2"),
            { conv := { id := "c2", title := "t", messages := [], model := "m",
                        createdAt := 2, updatedAt := 2, userId := "u" }, expireAt := 100 })],
          zsets := [("u", [("c1", 1), ("c2", 2)])] }
        (getUserConversationsKey "u") = 2
    ∧ (0 : Nat) ≠ 2 := by
  refine ⟨by decide, by decide, by decide⟩

/-- C6 as amended: for every `limit ≤ 100` and `offset ≥ 0`, list returns at
most `limit` conversations drawn in order from the descending-recency page of
the index starting at position `offset`; when the page is non-empty, `total`
equals the index cardinality at read time and `hasMore` holds exactly when
`offset + limit < total`; when the page is empty (offset past the end, or an
empty index), the handler short-circuits to `total = 0` and `hasMore = false`
regardless of the index cardinality. -/
theorem list_pagination_amended (uid : String) (limitQ offsetQ : Int) (st : RedisState)
    (hl : limitQ ≤ 100) (ho : 0 ≤ offsetQ) :
    ∃ convs total hasMore,
      listGET (some uid) limitQ offsetQ (some st) = ListResponse.okL convs total hasMore
      ∧ convs.length ≤ limitQ.toNat
      ∧ (pageEntries st (getUserConversationsKey uid) offsetQ
          (offsetQ + limitQ - 1)).Pairwise (fun a b : String × Nat => b.2 ≤ a.2)
      ∧ (st.zrevrange (getUserConversationsKey uid) offsetQ (offsetQ + limitQ - 1) = [] →
          convs = [] ∧ total = 0 ∧ hasMore = false)
      ∧ (st.zrevrange (getUserConversationsKey uid) offsetQ (offsetQ + limitQ - 1) ≠ [] →
          total = st.zcard (getUserConversationsKey uid)
          ∧ (hasMore = true ↔ offsetQ + limitQ < (total : Int))
          ∧ convs = (st.zrevrange (getUserConversationsKey uid) offsetQ
              (offsetQ + limitQ - 1)).filterMap
                (fun cid => (st.rget (getConversationKey uid cid)).map (fun r => r.conv))) := by
  have hmin : min limitQ 100 = limitQ := min_eq_left hl
  have hmax : max offsetQ 0 = offsetQ := max_eq_left ho
  rcases h' : st.zrevrange (getUserConversationsKey uid) offsetQ (offsetQ + limitQ - 1) with
    _ | ⟨a, as⟩
  · refine ⟨[], 0, false, ?_, by simp, pageEntries_pairwise st _ _ _,
      fun _ => ⟨rfl, rfl, rfl⟩, fun h => absurd rfl h⟩
    simp [listGET, hmin, hmax, h']
  · refine ⟨((a :: as).map
        (fun cid => (st.rget (getConversationKey uid cid)).map (fun r => r.conv))).filterMap
          (fun x => x),
      st.zcard (getUserConversationsKey uid),
      decide (offsetQ + limitQ < (st.zcard (getUserConversationsKey uid) : Int)),
      ?_, ?_, pageEntries_pairwise st _ _ _, ?_, ?_⟩
    · simp [listGET, hmin, hmax, h']
    · calc (((a :: as).map
            (fun cid => (st.rget (getConversationKey uid cid)).map (fun r => r.conv))).filterMap
              (fun x => x)).length
          ≤ ((a :: as).map
              (fun cid => (st.rget (getConversationKey uid cid)).map (fun r => r.conv))).length :=
            List.length_filterMap_le _ _
        _ = (a :: as).length := List.length_map _ _
        _ = (st.zrevrange (getUserConversationsKey uid) offsetQ
              (offsetQ + limitQ - 1)).length := by rw [h']
        _ ≤ (offsetQ + limitQ - 1 - offsetQ + 1).toNat := zrevrange_length_le st _ _ _
        _ = limitQ.toNat := by rw [show offsetQ + limitQ - 1 - offsetQ + 1 = limitQ from by omega]
    · intro h0
      simp at h0
    · intro _
      refine ⟨rfl, by simp, ?_⟩
      rw [List.filterMap_map]
      rfl

/-- Witness for `list_pagination_amended`: a user with two conversations,
`limit = 1`, `offset = 0`. -/
theorem list_pagination_amended_witness :
    ∃ convs total hasMore,
      listGET (some "u") 1 0 (some
        { kv := [(("u", "c1"),
            { conv := { id := "c1", title := "t", messages := [], model := "m",
                        createdAt := 1, updatedAt := 1, userId := "u" }, expireAt := 100 }),
           (("u", "c2"),
            { conv := { id := "c2", title := "t", messages := [], model := "m",
                        createdAt := 2, updatedAt := 2, userId := "u" }, expireAt := 100 })],
          zsets := [("u", [("c1", 1), ("c2", 2)])] }) = ListResponse.okL convs total hasMore
      ∧ convs.length ≤ (1 : Int).toNat := by
  obtain ⟨c, t, h, h1, h2, -, -, -⟩ := list_pagination_amended "u" 1 0
    { kv := [(("u", "c1"),
        { conv := { id := "c1", title := "t", messages := [], model := "m",
                    createdAt := 1, updatedAt := 1, userId := "u" }, expireAt := 100 }),
       (("u", "c2"),
        { conv := { id := "c2", title := "t", messages := [], model := "m",
                    createdAt := 2, updatedAt := 2, userId := "u" }, expireAt := 100 })],
      zsets := [("u", [("c1", 1), ("c2", 2)])] } (by decide) (by decide)
  exact ⟨c, t, h, h1, h2⟩

/-! ### C7 — append semantics -/

/-- C7: appending to an existing conversation adds the given message at the
end — the new message list is exactly the old one with the new message
appended, so the count grows by one and the prior messages keep their
positions — refreshes `updatedAt` to the current instant, rewrites the record
with a fresh 30-day TTL, and sets the per-user index score of the
conversation to the current instant; if the conversation is absent for this
user, the handler answers NotFound and leaves the state unchanged. -/
theorem append_message (st : RedisState) (userId conversationId : String)
    (body : AddMessageBody) (now : Nat) (hv : validAddMessage body = true) :
    (st.rget (getConversationKey userId conversationId) = none →
      patchConversation (some userId) conversationId body now (some st)
        = (some st, PatchResponse.notFound))
    ∧ (∀ rec : StoredRecord, st.rget (getConversationKey userId conversationId) = some rec →
        rec.conv.id = conversationId →
        ∃ st2 conv2,
          patchConversation (some userId) conversationId body now (some st)
              = (some st2, PatchResponse.okP conv2
                  { role := body.role, content := body.content, timestamp := now })
            ∧ conv2.messages = rec.conv.messages
                ++ [{ role := body.role, content := body.content, timestamp := now }]
            ∧ conv2.messages.length = rec.conv.messages.length + 1
            ∧ conv2.messages.take rec.conv.messages.length = rec.conv.messages
            ∧ conv2.updatedAt = now
            ∧ st2.rget (getConversationKey userId conversationId)
                = some { conv := conv2, expireAt := now + 30 * 24 * 60 * 60 }
            ∧ afind (zentries st2 (getUserConversationsKey userId)) conversationId
                = some now) := by
  constructor
  · intro h
    simp [patchConversation, hv, getConversation, h]
  · intro rec h hid
    refine ⟨(st.setEx (getConversationKey userId conversationId)
        { rec.conv with
          messages := rec.conv.messages
            ++ [{ role := body.role, content := body.content, timestamp := now }]
          updatedAt := now }
        (30 * 24 * 60 * 60) now).zadd (getUserConversationsKey userId) now conversationId,
      { rec.conv with
        messages := rec.conv.messages
          ++ [{ role := body.role, content := body.content, timestamp := now }]
        updatedAt := now },
      ?_, rfl, by simp, by simp, rfl, ?_, ?_⟩
    · simp [patchConversation, hv, getConversation, h, saveConversation, hid]
    · simp [RedisState.zadd, RedisState.setEx, RedisState.rget, afind_aset_self]
    · simp [RedisState.zadd, RedisState.setEx, zentries, afind_aset_self]

/-- Witness for `append_message`: a store holding one single-message
conversation, appended to at instant 5. -/
theorem append_message_witness :
    ∃ st2 conv2,
      patchConversation (some "u") "c-1" { role := Role.user, content := "hi" } 5 (some
          { kv := [(("u", "c-1"),
              { conv := { id := "c-1", title := "t",
                          messages := [{ role := Role.user, content := "a", timestamp := 1 }],
                          model := "m", createdAt := 1, updatedAt := 1, userId := "u" },
                expireAt := 50 })],
            zsets := [("u", [("c-1", 1)])] })
          = (some st2, PatchResponse.okP conv2
              { role := Role.user, content := "hi", timestamp := 5 })
        ∧ conv2.messages.length = 2 := by
  obtain ⟨st2, conv2, he, -, hlen, -, -, -, -⟩ :=
    (append_message
      { kv := [(("u", "c-1"),
          { conv := { id := "c-1", title := "t",
                      messages := [{ role := Role.user, content := "a", timestamp := 1 }],
                      model := "m", createdAt := 1, updatedAt := 1, userId := "u" },
            expireAt := 50 })],
        zsets := [("u", [("c-1", 1)])] }
      "u" "c-1" { role := Role.user, content := "hi" } 5 (by decide)).2
      { conv := { id := "c-1", title := "t",
                  messages := [{ role := Role.user, content := "a", timestamp := 1 }],
                  model := "m", createdAt := 1, updatedAt := 1, userId := "u" },
        expireAt := 50 }
      (by decide) rfl
  exact ⟨st2, conv2, he, by rw [hlen]; rfl⟩

/-! ### Helper lemmas: lockstep preservation -/

theorem lockstep_set_zadd (st : RedisState) (u cid : String) (conv : Conversation)
    (ttl now score : Nat) (h : Lockstep st) :
    Lockstep ((st.setEx (getConversationKey u cid) conv ttl now).zadd
      (getUserConversationsKey u) score cid) := by
  intro u' c'
  by_cases hu : u' = u
  · subst hu
    by_cases hc : c' = cid
    · subst hc
      simp [RedisState.setEx, RedisState.zadd, RedisState.rget, zentries,
        getConversationKey, getUserConversationsKey, afind_aset_self]
    · have hk : ((u', c') : String × String) ≠ (u', cid) := by simp [hc]
      have e1 : afind (aset st.kv (u', cid) { conv := conv, expireAt := now + ttl }) (u', c')
          = afind st.kv (u', c') := afind_aset_ne _ _ hk
      have e2 : afind (aset ((afind st.zsets u').getD []) cid score) c'
          = afind ((afind st.zsets u').getD []) c' := afind_aset_ne _ _ hc
      simpa [RedisState.setEx, RedisState.zadd, RedisState.rget, zentries,
        getConversationKey, getUserConversationsKey, afind_aset_self, e1, e2]
        using h u' c'
  · have hk : ((u', c') : String × String) ≠ (u, cid) := by simp [hu]
    have e1 : afind (aset st.kv (u, cid) { conv := conv, expireAt := now + ttl }) (u', c')
        = afind st.kv (u', c') := afind_aset_ne _ _ hk
    have e2 : afind (aset st.zsets u (aset ((afind st.zsets u).getD []) cid score)) u'
        = afind st.zsets u' := afind_aset_ne _ _ hu
    simpa [RedisState.setEx, RedisState.zadd, RedisState.rget, zentries,
      getConversationKey, getUserConversationsKey, e1, e2]
      using h u' c'

theorem lockstep_del_zrem (st : RedisState) (u cid : String) (h : Lockstep st) :
    Lockstep (({ st with kv := aerase st.kv (getConversationKey u cid) } : RedisState).zrem
      (getUserConversationsKey u) cid) := by
  intro u' c'
  by_cases hu : u' = u
  · subst hu
    by_cases hc : c' = cid
    · subst hc
      simp [RedisState.zrem, RedisState.rget, zentries, getConversationKey,
        getUserConversationsKey, afind_aset_self, afind_aerase_self]
    · have hk : ((u', c') : String × String) ≠ (u', cid) := by simp [hc]
      have e1 : afind (aerase st.kv (u', cid)) (u', c') = afind st.kv (u', c') :=
        afind_aerase_ne _ hk
      have e2 : afind (aerase ((afind st.zsets u').getD []) cid) c'
          = afind ((afind st.zsets u').getD []) c' := afind_aerase_ne _ hc
      simpa [RedisState.zrem, RedisState.rget, zentries, getConversationKey,
        getUserConversationsKey, afind_aset_self, e1, e2]
        using h u' c'
  · have hk : ((u', c') : String × String) ≠ (u, cid) := by simp [hu]
    have e1 : afind (aerase st.kv (u, cid)) (u', c') = afind st.kv (u', c') :=
      afind_aerase_ne _ hk
    have e2 : afind (aset st.zsets u (aerase ((afind st.zsets u).getD []) cid)) u'
        = afind st.zsets u' := afind_aset_ne _ _ hu
    simpa [RedisState.zrem, RedisState.rget, zentries, getConversationKey,
      getUserConversationsKey, e1, e2]
      using h u' c'

theorem delManyStep_lockstep (u cid : String) (acc : RedisState × Nat)
    (h : Lockstep acc.1) : Lockstep (delManyStep u acc cid).1 := by
  obtain ⟨st, n⟩ := acc
  cases hfind : afind st.kv (getConversationKey u cid) with
  | none => simpa [delManyStep, RedisState.rdel, hfind] using h
  | some rec =>
    have := lockstep_del_zrem st u cid h
    simpa [delManyStep, RedisState.rdel, hfind] using this

theorem foldl_delMany_lockstep (u : String) (ids : List String) (acc : RedisState × Nat)
    (h : Lockstep acc.1) : Lockstep (ids.foldl (delManyStep u) acc).1 := by
  induction ids generalizing acc with
  | nil => exact h
  | cons i ids ih => exact ih _ (delManyStep_lockstep u i _ h)

theorem stepStore_none (op : StoreOp) : stepStore none op = none := by
  cases op with
  | createC uid b fid now =>
    cases uid with
    | none => rfl
    | some u =>
      simp only [stepStore, createPOST]
      split <;> rfl
  | putC uid cid b now =>
    cases uid with
    | none => rfl
    | some u =>
      simp only [stepStore, putConversation]
      split <;> rfl
  | patchC uid cid b now =>
    cases uid with
    | none => rfl
    | some u =>
      simp only [stepStore, patchConversation]
      split <;> rfl
  | deleteC uid cid => cases uid <;> rfl
  | deleteManyC uid ids =>
    cases uid with
    | none => rfl
    | some u =>
      simp only [stepStore, deleteManyDELETE]
      split <;> rfl
  | listC _ _ _ => rfl
  | getC _ _ => rfl
  | chatC _ _ _ _ => rfl

theorem stepStore_lockstep (redis : Option RedisState) (op : StoreOp) (h : StoreInv redis) :
    StoreInv (stepStore redis op) := by
  cases redis with
  | none =>
    rw [stepStore_none]
    trivial
  | some st =>
    cases op with
    | listC _ _ _ => exact h
    | getC _ _ => exact h
    | chatC _ _ _ _ => exact h
    | createC uid b fid now =>
      cases uid with
      | none => exact h
      | some u =>
        cases hb : validCreateBody b with
        | false => simpa [stepStore, createPOST, hb] using h
        | true =>
          simp only [stepStore, createPOST, hb]
          simp only [Bool.true_eq_false, if_false]
          exact lockstep_set_zadd st u fid _ _ _ _ h
    | putC uid cid b now =>
      cases uid with
      | none => exact h
      | some u =>
        cases hb : validUpdateBody b with
        | false => simpa [stepStore, putConversation, hb] using h
        | true =>
          cases hfind : afind st.kv (getConversationKey u cid) with
          | none =>
            simpa [stepStore, putConversation, hb, getConversation, RedisState.rget, hfind]
              using h
          | some rec =>
            simp only [stepStore, putConversation, hb, getConversation, RedisState.rget,
              hfind, saveConversation, Bool.true_eq_false, if_false, Option.map_some']
            exact lockstep_set_zadd st u _ _ _ _ _ h
    | patchC uid cid b now =>
      cases uid with
      | none => exact h
      | some u =>
        cases hb : validAddMessage b with
        | false => simpa [stepStore, patchConversation, hb] using h
        | true =>
          cases hfind : afind st.kv (getConversationKey u cid) with
          | none =>
            simpa [stepStore, patchConversation, hb, getConversation, RedisState.rget, hfind]
              using h
          | some rec =>
            simp only [stepStore, patchConversation, hb, getConversation, RedisState.rget,
              hfind, saveConversation, Bool.true_eq_false, if_false, Option.map_some']
            exact lockstep_set_zadd st u _ _ _ _ _ h
    | deleteC uid cid =>
      cases uid with
      | none => exact h
      | some u =>
        cases hfind : afind st.kv (getConversationKey u cid) with
        | none =>
          simpa [stepStore, deleteOne, getConversation, RedisState.rget, hfind] using h
        | some rec =>
          have := lockstep_del_zrem st u cid h
          simpa [stepStore, deleteOne, getConversation, RedisState.rget, hfind,
            RedisState.rdel] using this
    | deleteManyC uid ids =>
      cases uid with
      | none => exact h
      | some u =>
        cases hids : ids.isEmpty with
        | true => simpa [stepStore, deleteManyDELETE, hids] using h
        | false =>
          simp only [stepStore, deleteManyDELETE, hids, Bool.false_eq_true, if_false]
          exact foldl_delMany_lockstep u ids (st, 0) h

/-! ### C8 — the record/index lockstep invariant -/

/-- C8: after every sequence of store operations (create, replace, append,
delete, delete-many, list, get, and chat turns), a conversation id is a
member of a user's recency index exactly when that user's conversation record
exists: create writes record and index entry together, the delete paths
remove both together, and append/replace re-write the record while refreshing
the index score, so the two are never out of lockstep. -/
theorem index_record_lockstep (ops : List StoreOp) (redis : Option RedisState)
    (h : StoreInv redis) : StoreInv (runOps redis ops) := by
  induction ops generalizing redis with
  | nil => exact h
  | cons op ops ih => exact ih _ (stepStore_lockstep redis op h)

/-- Witness for `index_record_lockstep`: a create, append, delete sequence
run from the empty configured store. -/
theorem index_record_lockstep_witness :
    StoreInv (runOps (some emptyRedis)
      [StoreOp.createC (some "u") { title := "T", model := none, systemPrompt := none } "c-1" 1,
       StoreOp.patchC (some "u") "c-1" { role := Role.user, content := "hi" } 2,
       StoreOp.deleteC (some "u") "c-1"]) :=
  index_record_lockstep
    [StoreOp.createC (some "u") { title := "T", model := none, systemPrompt := none } "c-1" 1,
     StoreOp.patchC (some "u") "c-1" { role := Role.user, content := "hi" } 2,
     StoreOp.deleteC (some "u") "c-1"]
    (some emptyRedis)
    (by
      intro u c
      simp [RedisState.rget, zentries, afind, emptyRedis])
